import Mathlib

/-!
Verification development for the restoration-phase controller
`MinC_1NrmRestorationPhase` (file `src/Algorithm/IpRestoMinC_1Nrm.cpp`).

The controller is shallowly embedded: `Number` (C++ double) is modelled as
the rationals `ℚ`; vectors as lists of rationals; the external collaborators
(inner restoration engine, calculated quantities `IpCq`, timing) are
modelled as oracle inputs recording the values they return when queried.
Exceptions thrown by `THROW_EXCEPTION` become an explicit outcome value.
-/

namespace IpoptResto

/-- A dense vector of `Number`s (C++ `Vector`), modelled as a list of rationals. -/
abbrev Vec := List ℚ

/-- Modelled from the spec: external dense-vector primitive (out-of-scope
collaborator).  `vAxpy a x y` is BLAS `y := y + a*x`, element-wise, as in
`Vector::Axpy`. -/
def vAxpy (a : ℚ) (x y : Vec) : Vec :=
  List.zipWith (fun xi yi => yi + a * xi) x y

/-- Modelled from the spec: external dense-vector primitive.
`vElementWiseMultiply y x` is `Vector::ElementWiseMultiply`, `y := y ⊙ x`. -/
def vElementWiseMultiply (y x : Vec) : Vec :=
  List.zipWith (fun yi xi => yi * xi) y x

/-- Modelled from the spec: external dense-vector primitive.
`vAddScalar y c` is `Vector::AddScalar`, adding `c` to every element of `y`. -/
def vAddScalar (y : Vec) (c : ℚ) : Vec :=
  y.map (fun yi => yi + c)

/-- Modelled from the spec: external dense-vector primitive.
`vElementWiseDivide y x` is `Vector::ElementWiseDivide`, `y := y ⊘ x`
(element-wise division; division by zero follows the field convention of ℚ). -/
def vElementWiseDivide (y x : Vec) : Vec :=
  List.zipWith (fun yi xi => yi / xi) y x

/-- Modelled from the spec: external dense-vector primitive.
`vScale a x` multiplies every element of `x` by `a`. -/
def vScale (a : ℚ) (x : Vec) : Vec :=
  x.map (fun xi => a * xi)

/-- Modelled from the spec: external dense-vector primitive.
`vAdd x y` is element-wise addition. -/
def vAdd (x y : Vec) : Vec :=
  List.zipWith (fun xi yi => xi + yi) x y

/-- Modelled from the spec: external dense-vector primitive.
`vAmax x` is `Vector::Amax`, the maximum absolute value of the entries
(`0` for the empty vector). -/
def vAmax (x : Vec) : ℚ :=
  x.foldr (fun xi m => max |xi| m) 0

/-- Three-list zip, used to state the element-wise repair formula of the spec. -/
def zip3With (f : ℚ → ℚ → ℚ → ℚ) : Vec → Vec → Vec → Vec
  | z :: zs, s :: ss, t :: ts => f z s t :: zip3With f zs ss ts
  | _, _, _ => []

/-- Embedding of `MinC_1NrmRestorationPhase::ComputeBoundMultiplierStep` (lines 430-445 of
`IpRestoMinC_1Nrm.cpp`):
```
delta_z.Copy(curr_slack);
delta_z.Axpy(-1., trial_slack);
delta_z.ElementWiseMultiply(curr_z);
delta_z.AddScalar(mu);
delta_z.ElementWiseDivide(curr_slack);
delta_z.Axpy(-1., curr_z);
```
`mu` is `IpData().curr_mu()`, the outer barrier parameter, passed explicitly
here since `IpData` is an external collaborator.
-/
def computeBoundMultiplierStep (mu : ℚ) (curr_z curr_slack trial_slack : Vec) : Vec :=
  let d1 := curr_slack
  let d2 := vAxpy (-1) trial_slack d1
  let d3 := vElementWiseMultiply d2 curr_z
  let d4 := vAddScalar d3 mu
  let d5 := vElementWiseDivide d4 curr_slack
  vAxpy (-1) curr_z d5

/-- The repair formula exactly as the spec writes it:
`delta_z = ((curr_slack − trial_slack) ⊙ curr_z + mu) / curr_slack − curr_z`. -/
def deltaZSpecFormula (mu : ℚ) (curr_z curr_slack trial_slack : Vec) : Vec :=
  zip3With (fun zi si ti => ((si - ti) * zi + mu) / si - zi) curr_z curr_slack trial_slack

theorem zip3With_getD (f : ℚ → ℚ → ℚ → ℚ) (z s t : Vec) (i : ℕ)
    (hz : i < z.length) (hs : i < s.length) (ht : i < t.length) :
    (zip3With f z s t).getD i 0 = f (z.getD i 0) (s.getD i 0) (t.getD i 0) := by
  induction z generalizing s t i with
  | nil => simp at hz
  | cons zh zt ih =>
    cases s with
    | nil => simp at hs
    | cons sh st =>
      cases t with
      | nil => simp at ht
      | cons th tt =>
        cases i with
        | zero => simp [zip3With]
        | succ j =>
          simp only [zip3With, List.getD_cons_succ]
          exact ih st tt j (by simpa using hz) (by simpa using hs) (by simpa using ht)

theorem computeBoundMultiplierStep_eq_formula (mu : ℚ) (z s t : Vec) :
    computeBoundMultiplierStep mu z s t = deltaZSpecFormula mu z s t := by
  unfold computeBoundMultiplierStep deltaZSpecFormula
  induction z generalizing s t with
  | nil =>
    cases s with
    | nil => simp [vAxpy, vElementWiseMultiply, vAddScalar, vElementWiseDivide, zip3With]
    | cons sh st =>
      cases t <;>
        simp [vAxpy, vElementWiseMultiply, vAddScalar, vElementWiseDivide, zip3With]
  | cons zh zt ih =>
    cases s with
    | nil => simp [vAxpy, vElementWiseMultiply, vAddScalar, vElementWiseDivide, zip3With]
    | cons sh st =>
      cases t with
      | nil => simp [vAxpy, vElementWiseMultiply, vAddScalar, vElementWiseDivide, zip3With]
      | cons th tt =>
        simp only [vAxpy, vElementWiseMultiply, vAddScalar, vElementWiseDivide,
          List.zipWith_cons_cons, List.map_cons, zip3With]
        refine List.cons_eq_cons.mpr ⟨by ring, ?_⟩
        simpa [vAxpy, vElementWiseMultiply, vAddScalar, vElementWiseDivide] using ih st tt

/-- Terminal status `SolverReturn` (`IpAlgTypes.hpp`) of of the inner
restoration engine. -/
inductive SolverReturn where
  | SUCCESS
  | MAXITER_EXCEEDED
  | CPUTIME_EXCEEDED
  | WALLTIME_EXCEEDED
  | STOP_AT_TINY_STEP
  | STOP_AT_ACCEPTABLE_POINT
  | LOCAL_INFEASIBILITY
  | USER_REQUESTED_STOP
  | FEASIBLE_POINT_FOUND
  | DIVERGING_ITERATES
  | RESTORATION_FAILURE
  | ERROR_IN_STEP_COMPUTATION
  | INVALID_NUMBER_DETECTED
  | TOO_FEW_DEGREES_OF_FREEDOM
  | INVALID_OPTION
  | OUT_OF_MEMORY
  | INTERNAL_ERROR
deriving DecidableEq, Repr

/-- The exceptions `PerformRestoration` can throw (`THROW_EXCEPTION` sites in
`IpRestoMinC_1Nrm.cpp`). -/
inductive RestoExc where
  | RESTORATION_WALLTIME_EXCEEDED
  | RESTORATION_CPUTIME_EXCEEDED
  | FEASIBILITY_PROBLEM_SOLVED
  | RESTORATION_CONVERGED_TO_FEASIBLE_POINT
  | LOCALLY_INFEASIBLE
  | RESTORATION_MAXITER_EXCEEDED
  | RESTORATION_FAILED
  | RESTORATION_USER_STOP
deriving DecidableEq, Repr

/-- The outer-visible outcome of one `PerformRestoration` call: an ordinary
boolean return, a thrown exception, a `DBG_ASSERT` violation, or a null /
bad-downcast dereference (both of the last two are undefined behaviour in
release builds and abort in debug builds). -/
inductive Outcome where
  | returned : Bool → Outcome
  | raised : RestoExc → Outcome
  | assertFail
  | invalidAccess
deriving DecidableEq, Repr

/-- Observable events of one call, in chronological order: the inner engine
being invoked (`resto_alg_->Optimize`), `IpData().set_trial`,
`IpData().AcceptTrialPoint`, `SetTrialBoundMultipliersFromStep`, and the
least-squares multiplier recomputation. -/
inductive REvent where
  | engineInvoked
  | setTrial
  | acceptTrial
  | setTrialBoundMults
  | leastSquareMults
deriving DecidableEq, Repr

/-- An outer-space iterate (`IteratesVector`): primal `x`, slack `s`,
equality multipliers `y_c`, inequality multipliers `y_d`, and the four
bound-multiplier vectors. -/
structure Iterate where
  x : Vec
  s : Vec
  y_c : Vec
  y_d : Vec
  z_L : Vec
  z_U : Vec
  v_L : Vec
  v_U : Vec
deriving DecidableEq, Repr

/-- A compound vector of the augmented restoration space (`CompoundVector`):
its first component `comp0` lives in the original problem's space; the
remaining components are the restoration slack blocks. -/
structure CompoundVec where
  comp0 : Vec
  restComps : List Vec
deriving DecidableEq, Repr

/-- The inner context's current iterate (`resto_ip_data->curr()`): every
component is a compound vector of the augmented space. -/
structure InnerIterate where
  x : CompoundVec
  s : CompoundVec
  y_c : CompoundVec
  y_d : CompoundVec
  z_L : CompoundVec
  z_U : CompoundVec
  v_L : CompoundVec
  v_U : CompoundVec
deriving DecidableEq, Repr

/-- The slice of `IpoptData` the controller reads and writes: the outer
current and trial iterates. `AcceptTrialPoint` copies `trial` into `curr`. -/
structure IpDataState where
  curr : Iterate
  trial : Iterate
deriving DecidableEq, Repr

/-- The slice of an `OptionsList` the controller touches.  `some v` means the
list holds an explicit entry for the option (set by the user or by an earlier
`Set...Value`); `none` means unset, so the registered default would apply. -/
structure OptionsList where
  start_with_resto : Option Bool
  theta_max_fact : Option ℚ
  required_infeasibility_reduction : Option ℚ
  resto_expect_infeasible_problem : Option Bool
  resto_max_wall_time : Option ℚ
  resto_max_cpu_time : Option ℚ
deriving DecidableEq, Repr

/-- Model of `OptionsList::SetNumericValueIfUnset`: writes the value only when the
option has no explicit entry yet. -/
def setIfUnsetQ (cur : Option ℚ) (v : ℚ) : Option ℚ :=
  match cur with
  | some w => some w
  | none => some v

/-- Model of `OptionsList::SetStringValueIfUnset` for a yes/no option. -/
def setIfUnsetB (cur : Option Bool) (v : Bool) : Option Bool :=
  match cur with
  | some w => some w
  | none => some v

/-- The controller's private state after `InitializeImpl`: the thresholds and
limits read once at initialization, the private copy `resto_options_` of the
option list, and the restoration counter. -/
structure Phase where
  constr_mult_reset_threshold : ℚ
  bound_mult_reset_threshold : ℚ
  expect_infeasible_problem : Bool
  constr_viol_tol : ℚ
  max_wall_time : ℚ
  max_cpu_time : ℚ
  resto_failure_feasibility_threshold : ℚ
  resto_options : OptionsList
  count_restorations : ℕ
deriving DecidableEq, Repr

/-- The option values `InitializeImpl` reads from the outer option list.
`Option` fields model options that may have no explicit entry;
plain fields model options whose `GetNumericValue`/`GetBoolValue` result is
used unconditionally (the registered default applies when unset, so the field
holds the effective value). -/
structure InitOptions where
  constr_mult_reset_threshold : ℚ
  bound_mult_reset_threshold : ℚ
  expect_infeasible_problem : Bool
  constr_viol_tol : ℚ
  max_wall_time : ℚ
  max_cpu_time : ℚ
  resto_failure_feasibility_threshold : Option ℚ
  base_options : OptionsList
deriving DecidableEq, Repr

/-- Embedding of `MinC_1NrmRestorationPhase::InitializeImpl` (lines 63-107): copies the
option list into `resto_options_`, reads the thresholds and time limits,
forces `resto.start_with_resto = no` in the copy, defaults
`resto.theta_max_fact` to `1e8` when the user did not set it, and defaults
`resto_failure_feasibility_threshold_` to `1e2 * IpData().tol()` when that
option has no explicit entry.  `tol` is the outer convergence tolerance
`IpData().tol()`. -/
def initializeImpl (opts : InitOptions) (tol : ℚ) : Phase :=
  { constr_mult_reset_threshold := opts.constr_mult_reset_threshold
    bound_mult_reset_threshold := opts.bound_mult_reset_threshold
    expect_infeasible_problem := opts.expect_infeasible_problem
    constr_viol_tol := opts.constr_viol_tol
    max_wall_time := opts.max_wall_time
    max_cpu_time := opts.max_cpu_time
    resto_failure_feasibility_threshold :=
      match opts.resto_failure_feasibility_threshold with
      | some v => v
      | none => 100 * tol
    resto_options :=
      { opts.base_options with
        start_with_resto := some false
        theta_max_fact :=
          match opts.base_options.theta_max_fact with
          | some v => some v
          | none => some (10 ^ 8) }
    count_restorations := 0 }

/-- The external collaborators queried during one `PerformRestoration` call,
recorded as the values they return at their (unique) query point in the call:
timing (`WallclockTime`, `CpuTime` minus the outer start stamps), the
calculated quantities `IpCq()` (violations, slacks, `IsSquareProblem`), the
outer `curr_mu`/`curr_tau`, the fraction-to-the-boundary rule, and the inner
engine's terminal status and final context (`resto_alg_->Optimize` and
`resto_ip_data->curr()`). -/
structure Oracle where
  curr_constraint_violation : ℚ
  wall_elapsed : ℚ
  cpu_elapsed : ℚ
  square_problem : Bool
  resto_status : SolverReturn
  resto_curr : Option InnerIterate
  unscaled_curr_nlp_constraint_violation : ℚ
  curr_primal_infeasibility : ℚ
  curr_mu : ℚ
  curr_tau : ℚ
  curr_slack_x_L : Vec
  curr_slack_x_U : Vec
  curr_slack_s_L : Vec
  curr_slack_s_U : Vec
  trial_slack_x_L : Vec
  trial_slack_x_U : Vec
  trial_slack_s_L : Vec
  trial_slack_s_U : Vec
  dual_frac_to_the_bound : ℚ → Vec → Vec → Vec → Vec → ℚ

/-- The observable result of one `PerformRestoration` call: the outcome, the
chronological event trace, the final outer data state, and the option list
the inner engine was initialized with (`none` when the engine was never
invoked). -/
structure RestoResult where
  outcome : Outcome
  trace : List REvent
  data : IpDataState
  optionsPassed : Option OptionsList

/-- The failure-path salvage (lines 204-242): the first (outer-space)
component of each compound vector of the inner current iterate, assembled
into an outer iterate via `Set_primal`, `Set_eq_mult`, `Set_bound_mult`. -/
def salvageIterate (it : InnerIterate) : Iterate :=
  { x := it.x.comp0
    s := it.s.comp0
    y_c := it.y_c.comp0
    y_d := it.y_d.comp0
    z_L := it.z_L.comp0
    z_U := it.z_U.comp0
    v_L := it.v_L.comp0
    v_U := it.v_U.comp0 }

/-- The per-call option derivation (lines 154-175): for a square problem,
`required_infeasibility_reduction` is set to `0` if unset; for an
expected-infeasible problem, nested infeasibility expectation is disabled
and, on the first restoration with violation above `1e-3`, a minimum
infeasibility reduction of `1e-3` is requested if unset. -/
def deriveActualRestoOptions (opts : OptionsList) (square expectInfeas : Bool)
    (cnt : ℕ) (viol : ℚ) : OptionsList :=
  if square then
    { opts with
      required_infeasibility_reduction := setIfUnsetQ opts.required_infeasibility_reduction 0 }
  else if expectInfeas then
    let o := { opts with
      resto_expect_infeasible_problem := setIfUnsetB opts.resto_expect_infeasible_problem false }
    if cnt = 1 ∧ 1 / 1000 < viol then
      { o with
        required_infeasibility_reduction := setIfUnsetQ o.required_infeasibility_reduction (1 / 1000) }
    else o
  else opts

/-- Modelled from the spec: `IpoptData::SetTrialBoundMultipliersFromStep`
(an external `IpData` member, not part of the supplied source), which applies
`trial_z = curr_z + alpha_dual * delta_z` to all four bound-multiplier
families of the trial iterate. -/
def setTrialBoundMultipliersFromStep (curr trial : Iterate) (alpha : ℚ)
    (dzL dzU dvL dvU : Vec) : Iterate :=
  { trial with
    z_L := vAdd curr.z_L (vScale alpha dzL)
    z_U := vAdd curr.z_U (vScale alpha dzU)
    v_L := vAdd curr.v_L (vScale alpha dvL)
    v_U := vAdd curr.v_U (vScale alpha dvU) }

/-- The four bound-multiplier steps of the repair block (lines 370-379),
fed from the outer current multipliers and the current/trial slacks. -/
def repairDeltas (d : IpDataState) (q : Oracle) : Vec × Vec × Vec × Vec :=
  (computeBoundMultiplierStep q.curr_mu d.curr.z_L q.curr_slack_x_L q.trial_slack_x_L,
   computeBoundMultiplierStep q.curr_mu d.curr.z_U q.curr_slack_x_U q.trial_slack_x_U,
   computeBoundMultiplierStep q.curr_mu d.curr.v_L q.curr_slack_s_L q.trial_slack_s_L,
   computeBoundMultiplierStep q.curr_mu d.curr.v_U q.curr_slack_s_U q.trial_slack_s_U)

/-- Sentinel `1e20`: the value above which `max_wall_time`/`max_cpu_time` count as
"no limit" (lines 127 and 139 test `< 1e20`). -/
def bigTime : ℚ := 100000000000000000000

/-- The remaining-budget option updates of lines 127-149 applied to
`resto_options_`: when a limit is finite (and not already exhausted, which is
checked before this point), `resto.max_wall_time` / `resto.max_cpu_time` is
set to the remaining budget. -/
def budgetedOptions (ph : Phase) (q : Oracle) : OptionsList :=
  let opts1 :=
    if ph.max_wall_time < bigTime then
      { ph.resto_options with resto_max_wall_time := some (ph.max_wall_time - q.wall_elapsed) }
    else ph.resto_options
  if ph.max_cpu_time < bigTime then
    { opts1 with resto_max_cpu_time := some (ph.max_cpu_time - q.cpu_elapsed) }
  else opts1

/-- The `trial3` value of the repair block: the bound-multiplier steps of
lines 370-379, the fraction-to-the-boundary step size of line 386, and
`SetTrialBoundMultipliersFromStep` of line 391 applied to the trial iterate
already holding the copied primal/slack. -/
def repairedTrial (d : IpDataState) (trial2 : Iterate) (q : Oracle) : Iterate :=
  let dz := repairDeltas d q
  let alpha := q.dual_frac_to_the_bound q.curr_tau dz.1 dz.2.1 dz.2.2.1 dz.2.2.2
  setTrialBoundMultipliersFromStep d.curr trial2 alpha dz.1 dz.2.1 dz.2.2.1 dz.2.2.2

/-- Computes `Max(z_L->Amax(), z_U->Amax(), v_L->Amax(), v_U->Amax())` of lines
394-395: the largest absolute entry over the four trial bound-multiplier
vectors. -/
def boundMultMax (t : Iterate) : ℚ :=
  max (max (vAmax t.z_L) (vAmax t.z_U)) (max (vAmax t.v_L) (vAmax t.v_U))

/-- The non-`SUCCESS` terminal-status dispatch (lines 269-332).  Every branch
of the original `if`/`else if` chain either throws one exception or (final
`else`) sets `retval = 1`, which makes the function return `false`; the
surrounding side effects (iterate salvage, logging) are identical across the
branches and are handled by the caller. -/
def dispatchFailureOutcome (ph : Phase) (q : Oracle) : Outcome :=
  if q.square_problem = true ∧ q.resto_status = .STOP_AT_ACCEPTABLE_POINT ∧
      q.unscaled_curr_nlp_constraint_violation < ph.constr_viol_tol then
    .raised .FEASIBILITY_PROBLEM_SOLVED
  else if q.resto_status = .STOP_AT_TINY_STEP ∨
      q.resto_status = .STOP_AT_ACCEPTABLE_POINT then
    if q.curr_primal_infeasibility ≤ ph.resto_failure_feasibility_threshold then
      .raised .RESTORATION_CONVERGED_TO_FEASIBLE_POINT
    else
      .raised .LOCALLY_INFEASIBLE
  else if q.resto_status = .MAXITER_EXCEEDED then
    .raised .RESTORATION_MAXITER_EXCEEDED
  else if q.resto_status = .CPUTIME_EXCEEDED then
    .raised .RESTORATION_CPUTIME_EXCEEDED
  else if q.resto_status = .WALLTIME_EXCEEDED then
    .raised .RESTORATION_WALLTIME_EXCEEDED
  else if q.resto_status = .LOCAL_INFEASIBILITY then
    .raised .LOCALLY_INFEASIBLE
  else if q.resto_status = .RESTORATION_FAILURE then
    .raised .RESTORATION_FAILED
  else if q.resto_status = .ERROR_IN_STEP_COMPUTATION then
    .raised .RESTORATION_FAILED
  else if q.resto_status = .USER_REQUESTED_STOP then
    .raised .RESTORATION_USER_STOP
  else
    .returned false

/-- Embedding of `MinC_1NrmRestorationPhase::PerformRestoration` (lines 109-428),
straight-line embedding in source order: the `DBG_ASSERT` on positive
violation; the entry wall/cpu budget checks (throwing before the engine is
invoked); the per-call option derivation; the inner solve; the failure-path
iterate salvage; the terminal-status dispatch; and, on success, the
primal/slack copy, the square-problem early exit, and the bound-multiplier
repair with its reset safeguard. -/
def performRestoration (ph : Phase) (d0 : IpDataState) (q : Oracle) : RestoResult :=
  let cnt := ph.count_restorations + 1
  if 0 < q.curr_constraint_violation then
    if ph.max_wall_time < bigTime ∧ ph.max_wall_time ≤ q.wall_elapsed then
      { outcome := .raised .RESTORATION_WALLTIME_EXCEEDED, trace := [],
        data := d0, optionsPassed := none }
    else if ph.max_cpu_time < bigTime ∧ ph.max_cpu_time ≤ q.cpu_elapsed then
      { outcome := .raised .RESTORATION_CPUTIME_EXCEEDED, trace := [],
        data := d0, optionsPassed := none }
    else
      let actual := deriveActualRestoOptions (budgetedOptions ph q) q.square_problem
        ph.expect_infeasible_problem cnt q.curr_constraint_violation
      -- resto_alg_->Optimize(true) runs here; q.resto_status is its result
      if q.resto_status = .SUCCESS then
        match q.resto_curr with
        | none =>
          { outcome := .invalidAccess, trace := [.engineInvoked],
            data := d0, optionsPassed := some actual }
        | some it =>
          let trial2 := { d0.trial with x := it.x.comp0, s := it.s.comp0 }
          if q.square_problem = true ∧
              q.unscaled_curr_nlp_constraint_violation ≤ ph.constr_viol_tol then
            { outcome := .raised .FEASIBILITY_PROBLEM_SOLVED,
              trace := [.engineInvoked, .setTrial, .acceptTrial],
              data := { curr := trial2, trial := trial2 },
              optionsPassed := some actual }
          else
            let trial3 := repairedTrial d0 trial2 q
            let reset := ph.bound_mult_reset_threshold < boundMultMax trial3
            let trial4 :=
              if reset then
                { trial3 with
                  z_L := trial3.z_L.map (fun _ => 1)
                  z_U := trial3.z_U.map (fun _ => 1)
                  v_L := trial3.v_L.map (fun _ => 1)
                  v_U := trial3.v_U.map (fun _ => 1) }
              else trial3
            { outcome := .returned true,
              trace := [.engineInvoked, .setTrial, .setTrialBoundMults] ++
                (if reset then [.setTrial] else []) ++ [.leastSquareMults],
              data := { curr := d0.curr, trial := trial4 },
              optionsPassed := some actual }
      else
        let d1 : IpDataState :=
          match q.resto_curr with
          | some it => { curr := salvageIterate it, trial := salvageIterate it }
          | none => d0
        let tr1 : List REvent :=
          .engineInvoked ::
            (match q.resto_curr with
             | some _ => [.setTrial, .acceptTrial]
             | none => [])
        { outcome := dispatchFailureOutcome ph q, trace := tr1,
          data := d1, optionsPassed := some actual }
  else
    { outcome := .assertFail, trace := [], data := d0, optionsPassed := none }

/-! ### Concrete sample inputs used by the witnesses -/

def emptyOptions : OptionsList :=
  { start_with_resto := none
    theta_max_fact := none
    required_infeasibility_reduction := none
    resto_expect_infeasible_problem := none
    resto_max_wall_time := none
    resto_max_cpu_time := none }

def sampleIterate : Iterate :=
  { x := [1], s := [1], y_c := [1], y_d := [1]
    z_L := [1], z_U := [1], v_L := [1], v_U := [1] }

def sampleData : IpDataState :=
  { curr := sampleIterate, trial := sampleIterate }

def sampleCompound : CompoundVec :=
  { comp0 := [3], restComps := [[4]] }

def sampleInner : InnerIterate :=
  { x := sampleCompound, s := sampleCompound, y_c := sampleCompound, y_d := sampleCompound
    z_L := sampleCompound, z_U := sampleCompound, v_L := sampleCompound, v_U := sampleCompound }

/-- A phase with no time limits (`1e20` sentinels) and integral thresholds
(witness values are kept integral so that concrete evaluation stays in the
integral fragment of ℚ). -/
def samplePhase : Phase :=
  { constr_mult_reset_threshold := 0
    bound_mult_reset_threshold := 1000
    expect_infeasible_problem := false
    constr_viol_tol := 1
    max_wall_time := bigTime
    max_cpu_time := bigTime
    resto_failure_feasibility_threshold := 1
    resto_options := emptyOptions
    count_restorations := 0 }

def sampleOracle : Oracle :=
  { curr_constraint_violation := 2
    wall_elapsed := 0
    cpu_elapsed := 0
    square_problem := false
    resto_status := .SUCCESS
    resto_curr := some sampleInner
    unscaled_curr_nlp_constraint_violation := 2
    curr_primal_infeasibility := 0
    curr_mu := 1
    curr_tau := 1
    curr_slack_x_L := [1]
    curr_slack_x_U := [1]
    curr_slack_s_L := [1]
    curr_slack_s_U := [1]
    trial_slack_x_L := [3]
    trial_slack_x_U := [3]
    trial_slack_s_L := [3]
    trial_slack_s_U := [3]
    dual_frac_to_the_bound := fun _ _ _ _ => 1 }

/-! ### Claim theorems -/

/-- C9: `PerformRestoration` has the strictly-positive-violation
precondition `DBG_ASSERT(IpCq().curr_constraint_violation() > 0.)`
(line 119); a call with nonpositive current constraint violation fails the
assertion and is never a normal return. -/
theorem performRestoration_requires_positive_violation
    (ph : Phase) (d : IpDataState) (q : Oracle)
    (h : q.curr_constraint_violation ≤ 0) :
    (performRestoration ph d q).outcome = Outcome.assertFail ∧
      ∀ b : Bool, (performRestoration ph d q).outcome ≠ Outcome.returned b := by
  have hn : ¬ 0 < q.curr_constraint_violation := not_lt.mpr h
  refine ⟨by simp [performRestoration, hn], fun b => by simp [performRestoration, hn]⟩

theorem performRestoration_requires_positive_violation_witness :
    ({ sampleOracle with curr_constraint_violation := 0 } : Oracle).curr_constraint_violation ≤ 0 ∧
      (performRestoration samplePhase sampleData
        { sampleOracle with curr_constraint_violation := 0 }).outcome = Outcome.assertFail :=
  ⟨by decide,
    (performRestoration_requires_positive_violation samplePhase sampleData
      { sampleOracle with curr_constraint_violation := 0 } (by decide)).1⟩

/-- C3: if a finite wall or CPU limit is already exhausted at entry
(lines 127-149), the call raises the time-exceeded exception matching an
exhausted limit before the inner engine is ever invoked (no options are
passed to it and no engine event occurs). -/
theorem performRestoration_entry_time_exceeded
    (ph : Phase) (d : IpDataState) (q : Oracle)
    (hv : 0 < q.curr_constraint_violation)
    (h : (ph.max_wall_time < bigTime ∧ ph.max_wall_time ≤ q.wall_elapsed) ∨
         (ph.max_cpu_time < bigTime ∧ ph.max_cpu_time ≤ q.cpu_elapsed)) :
    ((performRestoration ph d q).outcome = Outcome.raised .RESTORATION_WALLTIME_EXCEEDED ∧
        ph.max_wall_time < bigTime ∧ ph.max_wall_time ≤ q.wall_elapsed ∨
      (performRestoration ph d q).outcome = Outcome.raised .RESTORATION_CPUTIME_EXCEEDED ∧
        ph.max_cpu_time < bigTime ∧ ph.max_cpu_time ≤ q.cpu_elapsed) ∧
      (performRestoration ph d q).optionsPassed = none ∧
      REvent.engineInvoked ∉ (performRestoration ph d q).trace := by
  by_cases hw : ph.max_wall_time < bigTime ∧ ph.max_wall_time ≤ q.wall_elapsed
  · refine ⟨Or.inl ⟨?_, hw⟩, ?_, ?_⟩ <;> simp [performRestoration, hv, hw]
  · have hc : ph.max_cpu_time < bigTime ∧ ph.max_cpu_time ≤ q.cpu_elapsed := h.resolve_left hw
    refine ⟨Or.inr ⟨?_, hc⟩, ?_, ?_⟩ <;> simp [performRestoration, hv, hw, hc]

def phaseTimedOut : Phase :=
  { samplePhase with max_wall_time := 10, max_cpu_time := 10 }

def oracleTimedOut : Oracle :=
  { sampleOracle with wall_elapsed := 20, cpu_elapsed := 20 }

theorem performRestoration_entry_time_exceeded_witness :
    (0 < oracleTimedOut.curr_constraint_violation ∧
      ((phaseTimedOut.max_wall_time < bigTime ∧
          phaseTimedOut.max_wall_time ≤ oracleTimedOut.wall_elapsed) ∨
        (phaseTimedOut.max_cpu_time < bigTime ∧
          phaseTimedOut.max_cpu_time ≤ oracleTimedOut.cpu_elapsed))) ∧
      (((performRestoration phaseTimedOut sampleData oracleTimedOut).outcome =
            Outcome.raised .RESTORATION_WALLTIME_EXCEEDED ∧
          phaseTimedOut.max_wall_time < bigTime ∧
          phaseTimedOut.max_wall_time ≤ oracleTimedOut.wall_elapsed ∨
        (performRestoration phaseTimedOut sampleData oracleTimedOut).outcome =
            Outcome.raised .RESTORATION_CPUTIME_EXCEEDED ∧
          phaseTimedOut.max_cpu_time < bigTime ∧
          phaseTimedOut.max_cpu_time ≤ oracleTimedOut.cpu_elapsed) ∧
        (performRestoration phaseTimedOut sampleData oracleTimedOut).optionsPassed = none ∧
        REvent.engineInvoked ∉ (performRestoration phaseTimedOut sampleData oracleTimedOut).trace) :=
  ⟨⟨by decide, Or.inl (by decide)⟩,
    performRestoration_entry_time_exceeded phaseTimedOut sampleData oracleTimedOut
      (by decide) (Or.inl (by decide))⟩

/-- C1: for a non-square problem whose inner solve stops at a tiny step or at
an acceptable point (lines 278-292), the call raises
`RESTORATION_CONVERGED_TO_FEASIBLE_POINT` when the outer current primal
infeasibility (max-norm) is at most `resto_failure_feasibility_threshold`,
and `LOCALLY_INFEASIBLE` otherwise. -/
theorem performRestoration_tiny_or_acceptable_nonsquare
    (ph : Phase) (d : IpDataState) (q : Oracle)
    (hv : 0 < q.curr_constraint_violation)
    (hw : ¬ (ph.max_wall_time < bigTime ∧ ph.max_wall_time ≤ q.wall_elapsed))
    (hc : ¬ (ph.max_cpu_time < bigTime ∧ ph.max_cpu_time ≤ q.cpu_elapsed))
    (hsq : q.square_problem = false)
    (hst : q.resto_status = .STOP_AT_TINY_STEP ∨
      q.resto_status = .STOP_AT_ACCEPTABLE_POINT) :
    (performRestoration ph d q).outcome =
      (if q.curr_primal_infeasibility ≤ ph.resto_failure_feasibility_threshold
        then Outcome.raised .RESTORATION_CONVERGED_TO_FEASIBLE_POINT
        else Outcome.raised .LOCALLY_INFEASIBLE) := by
  by_cases hle : q.curr_primal_infeasibility ≤ ph.resto_failure_feasibility_threshold <;>
    rcases hst with h | h <;>
      simp [performRestoration, dispatchFailureOutcome, hv, hw, hc, hsq, h, hle]

/-- The shape of the spec scenario: non-square, tiny step, outer primal
infeasibility below the failure-feasibility threshold. -/
def oracleTinyStep : Oracle :=
  { sampleOracle with
    resto_status := .STOP_AT_TINY_STEP
    curr_primal_infeasibility := 0 }

theorem performRestoration_tiny_or_acceptable_nonsquare_witness :
    (0 < oracleTinyStep.curr_constraint_violation ∧
      ¬ (samplePhase.max_wall_time < bigTime ∧
          samplePhase.max_wall_time ≤ oracleTinyStep.wall_elapsed) ∧
      ¬ (samplePhase.max_cpu_time < bigTime ∧
          samplePhase.max_cpu_time ≤ oracleTinyStep.cpu_elapsed) ∧
      oracleTinyStep.square_problem = false ∧
      oracleTinyStep.resto_status = SolverReturn.STOP_AT_TINY_STEP) ∧
      (performRestoration samplePhase sampleData oracleTinyStep).outcome =
        (if oracleTinyStep.curr_primal_infeasibility ≤
            samplePhase.resto_failure_feasibility_threshold
          then Outcome.raised .RESTORATION_CONVERGED_TO_FEASIBLE_POINT
          else Outcome.raised .LOCALLY_INFEASIBLE) :=
  ⟨⟨by decide, by decide, by decide, by decide, by decide⟩,
    performRestoration_tiny_or_acceptable_nonsquare samplePhase sampleData oracleTinyStep
      (by decide) (by decide) (by decide) (by decide) (Or.inl (by decide))⟩

set_option maxHeartbeats 1000000 in
theorem dispatchFailureOutcome_raised_or_false (ph : Phase) (q : Oracle) :
    (∃ e, dispatchFailureOutcome ph q = Outcome.raised e) ∨
      dispatchFailureOutcome ph q = Outcome.returned false := by
  unfold dispatchFailureOutcome
  split_ifs <;> first
    | exact Or.inl ⟨_, rfl⟩
    | exact Or.inr rfl

/-- C7: on every non-`SUCCESS` terminal status with a valid inner current
iterate (lines 196-247), the first outer-space block of each of the eight
iterate components is installed as the outer trial point and the trial point
is accepted, before the outcome (an exception or the `false` return) leaves
the call: the event trace consists of exactly the engine invocation, the
`set_trial` and the `AcceptTrialPoint`. -/
theorem performRestoration_failure_salvage
    (ph : Phase) (d : IpDataState) (q : Oracle)
    (hv : 0 < q.curr_constraint_violation)
    (hw : ¬ (ph.max_wall_time < bigTime ∧ ph.max_wall_time ≤ q.wall_elapsed))
    (hc : ¬ (ph.max_cpu_time < bigTime ∧ ph.max_cpu_time ≤ q.cpu_elapsed))
    (hns : ¬ q.resto_status = SolverReturn.SUCCESS)
    (it : InnerIterate) (hcur : q.resto_curr = some it) :
    (performRestoration ph d q).data.curr = salvageIterate it ∧
      (performRestoration ph d q).data.trial = salvageIterate it ∧
      (performRestoration ph d q).trace =
        [REvent.engineInvoked, REvent.setTrial, REvent.acceptTrial] ∧
      ((∃ e, (performRestoration ph d q).outcome = Outcome.raised e) ∨
        (performRestoration ph d q).outcome = Outcome.returned false) := by
  refine ⟨?_, ?_, ?_, ?_⟩
  · simp [performRestoration, hv, hw, hc, hns, hcur]
  · simp [performRestoration, hv, hw, hc, hns, hcur]
  · simp [performRestoration, hv, hw, hc, hns, hcur]
  · have ho : (performRestoration ph d q).outcome = dispatchFailureOutcome ph q := by
      simp [performRestoration, hv, hw, hc, hns, hcur]
    rw [ho]
    exact dispatchFailureOutcome_raised_or_false ph q

def oracleMaxIter : Oracle :=
  { sampleOracle with resto_status := .MAXITER_EXCEEDED }

theorem performRestoration_failure_salvage_witness :
    (0 < oracleMaxIter.curr_constraint_violation ∧
      ¬ (samplePhase.max_wall_time < bigTime ∧
          samplePhase.max_wall_time ≤ oracleMaxIter.wall_elapsed) ∧
      ¬ (samplePhase.max_cpu_time < bigTime ∧
          samplePhase.max_cpu_time ≤ oracleMaxIter.cpu_elapsed) ∧
      ¬ oracleMaxIter.resto_status = SolverReturn.SUCCESS ∧
      oracleMaxIter.resto_curr = some sampleInner) ∧
      (performRestoration samplePhase sampleData oracleMaxIter).data.curr =
        salvageIterate sampleInner ∧
      (performRestoration samplePhase sampleData oracleMaxIter).data.trial =
        salvageIterate sampleInner ∧
      (performRestoration samplePhase sampleData oracleMaxIter).trace =
        [REvent.engineInvoked, REvent.setTrial, REvent.acceptTrial] ∧
      ((∃ e, (performRestoration samplePhase sampleData oracleMaxIter).outcome =
          Outcome.raised e) ∨
        (performRestoration samplePhase sampleData oracleMaxIter).outcome =
          Outcome.returned false) :=
  ⟨⟨by decide, by decide, by decide, by decide, rfl⟩,
    performRestoration_failure_salvage samplePhase sampleData oracleMaxIter
      (by decide) (by decide) (by decide) (by decide) sampleInner rfl⟩

/-- The terminal statuses given explicit branches by the dispatch chain of
lines 249-326 (`SUCCESS` plus the nine non-success statuses). -/
def dispatchedStatuses : List SolverReturn :=
  [.SUCCESS, .STOP_AT_ACCEPTABLE_POINT, .STOP_AT_TINY_STEP, .MAXITER_EXCEEDED,
   .CPUTIME_EXCEEDED, .WALLTIME_EXCEEDED, .LOCAL_INFEASIBILITY,
   .RESTORATION_FAILURE, .ERROR_IN_STEP_COMPUTATION, .USER_REQUESTED_STOP]

/-- C10: any terminal status outside the dispatched set falls into the final
`else` (lines 327-332), which sets `retval = 1`: the call performs the
iterate salvage when an inner current iterate exists and then returns `false`
as an ordinary return value, raising no exception. -/
theorem performRestoration_unexpected_status
    (ph : Phase) (d : IpDataState) (q : Oracle)
    (hv : 0 < q.curr_constraint_violation)
    (hw : ¬ (ph.max_wall_time < bigTime ∧ ph.max_wall_time ≤ q.wall_elapsed))
    (hc : ¬ (ph.max_cpu_time < bigTime ∧ ph.max_cpu_time ≤ q.cpu_elapsed))
    (hs : q.resto_status ∉ dispatchedStatuses) :
    (performRestoration ph d q).outcome = Outcome.returned false ∧
      ∀ it, q.resto_curr = some it →
        (performRestoration ph d q).data.curr = salvageIterate it ∧
        (performRestoration ph d q).data.trial = salvageIterate it ∧
        (performRestoration ph d q).trace =
          [REvent.engineInvoked, REvent.setTrial, REvent.acceptTrial] := by
  simp only [dispatchedStatuses, List.mem_cons, List.not_mem_nil, or_false, not_or] at hs
  obtain ⟨h1, h2, h3, h4, h5, h6, h7, h8, h9, h10⟩ := hs
  refine ⟨?_, fun it hcur => ⟨?_, ?_, ?_⟩⟩
  · simp [performRestoration, dispatchFailureOutcome, hv, hw, hc,
      h1, h2, h3, h4, h5, h6, h7, h8, h9, h10]
  · simp [performRestoration, hv, hw, hc, h1, hcur]
  · simp [performRestoration, hv, hw, hc, h1, hcur]
  · simp [performRestoration, hv, hw, hc, h1, hcur]

def oracleDiverging : Oracle :=
  { sampleOracle with resto_status := .DIVERGING_ITERATES }

theorem performRestoration_unexpected_status_witness :
    (0 < oracleDiverging.curr_constraint_violation ∧
      ¬ (samplePhase.max_wall_time < bigTime ∧
          samplePhase.max_wall_time ≤ oracleDiverging.wall_elapsed) ∧
      ¬ (samplePhase.max_cpu_time < bigTime ∧
          samplePhase.max_cpu_time ≤ oracleDiverging.cpu_elapsed) ∧
      oracleDiverging.resto_status ∉ dispatchedStatuses ∧
      oracleDiverging.resto_curr = some sampleInner) ∧
      (performRestoration samplePhase sampleData oracleDiverging).outcome =
        Outcome.returned false ∧
      (performRestoration samplePhase sampleData oracleDiverging).data.curr =
        salvageIterate sampleInner ∧
      (performRestoration samplePhase sampleData oracleDiverging).data.trial =
        salvageIterate sampleInner ∧
      (performRestoration samplePhase sampleData oracleDiverging).trace =
        [REvent.engineInvoked, REvent.setTrial, REvent.acceptTrial] := by
  have h := performRestoration_unexpected_status samplePhase sampleData oracleDiverging
    (by decide) (by decide) (by decide) (by decide)
  exact ⟨⟨by decide, by decide, by decide, by decide, rfl⟩,
    h.1, (h.2 sampleInner rfl).1, (h.2 sampleInner rfl).2.1, (h.2 sampleInner rfl).2.2⟩

theorem performRestoration_optionsPassed
    (ph : Phase) (d : IpDataState) (q : Oracle)
    (hv : 0 < q.curr_constraint_violation)
    (hw : ¬ (ph.max_wall_time < bigTime ∧ ph.max_wall_time ≤ q.wall_elapsed))
    (hc : ¬ (ph.max_cpu_time < bigTime ∧ ph.max_cpu_time ≤ q.cpu_elapsed)) :
    (performRestoration ph d q).optionsPassed =
      some (deriveActualRestoOptions (budgetedOptions ph q) q.square_problem
        ph.expect_infeasible_problem (ph.count_restorations + 1)
        q.curr_constraint_violation) := by
  by_cases hS : q.resto_status = SolverReturn.SUCCESS
  · cases hC : q.resto_curr with
    | none => simp [performRestoration, hv, hw, hc, hS, hC]
    | some it =>
      simp [performRestoration, hv, hw, hc, hS, hC, apply_ite RestoResult.optionsPassed]
  · simp [performRestoration, hv, hw, hc, hS]

theorem budgetedOptions_required_infeasibility_reduction (ph : Phase) (q : Oracle) :
    (budgetedOptions ph q).required_infeasibility_reduction =
      ph.resto_options.required_infeasibility_reduction := by
  simp only [budgetedOptions]
  split_ifs <;> rfl

/-- C6 counterexample: a square problem where the user has already set
`required_infeasibility_reduction` (here to `9`): the option set passed to
the inner engine keeps the preset value, so the claim that it always equals
`0` on square problems is false (`SetNumericValueIfUnset` at line 162 does
not overwrite an existing entry). -/
def phasePresetReduction : Phase :=
  { samplePhase with
    resto_options := { emptyOptions with required_infeasibility_reduction := some 9 } }

def oracleSquare : Oracle :=
  { sampleOracle with square_problem := true }

theorem square_required_reduction_counterexample :
    oracleSquare.square_problem = true ∧
      (performRestoration phasePresetReduction sampleData oracleSquare).optionsPassed.map
          OptionsList.required_infeasibility_reduction = some (some 9) ∧
      ¬ (performRestoration phasePresetReduction sampleData oracleSquare).optionsPassed.map
          OptionsList.required_infeasibility_reduction = some (some 0) := by
  have he : (performRestoration phasePresetReduction sampleData oracleSquare).optionsPassed.map
      OptionsList.required_infeasibility_reduction = some (some 9) := rfl
  refine ⟨rfl, he, ?_⟩
  rw [he]
  simp

/-- C6 (amended): for every square problem, the option set passed to the
inner engine carries `required_infeasibility_reduction = 0` when that option
had no explicit entry, and keeps the pre-existing entry unchanged otherwise
(`SetNumericValueIfUnset`, lines 159-162). -/
theorem square_forces_required_reduction_if_unset
    (ph : Phase) (d : IpDataState) (q : Oracle)
    (hv : 0 < q.curr_constraint_violation)
    (hw : ¬ (ph.max_wall_time < bigTime ∧ ph.max_wall_time ≤ q.wall_elapsed))
    (hc : ¬ (ph.max_cpu_time < bigTime ∧ ph.max_cpu_time ≤ q.cpu_elapsed))
    (hsq : q.square_problem = true) :
    (ph.resto_options.required_infeasibility_reduction = none →
      (performRestoration ph d q).optionsPassed.map
        OptionsList.required_infeasibility_reduction = some (some 0)) ∧
    (∀ v, ph.resto_options.required_infeasibility_reduction = some v →
      (performRestoration ph d q).optionsPassed.map
        OptionsList.required_infeasibility_reduction = some (some v)) := by
  have hopt := performRestoration_optionsPassed ph d q hv hw hc
  constructor
  · intro h
    rw [hopt]
    simp [deriveActualRestoOptions, hsq, setIfUnsetQ,
      budgetedOptions_required_infeasibility_reduction, h]
  · intro v h
    rw [hopt]
    simp [deriveActualRestoOptions, hsq, setIfUnsetQ,
      budgetedOptions_required_infeasibility_reduction, h]

theorem square_forces_required_reduction_if_unset_witness :
    (0 < oracleSquare.curr_constraint_violation ∧
      ¬ (samplePhase.max_wall_time < bigTime ∧
          samplePhase.max_wall_time ≤ oracleSquare.wall_elapsed) ∧
      ¬ (samplePhase.max_cpu_time < bigTime ∧
          samplePhase.max_cpu_time ≤ oracleSquare.cpu_elapsed) ∧
      oracleSquare.square_problem = true ∧
      samplePhase.resto_options.required_infeasibility_reduction = none) ∧
      (performRestoration samplePhase sampleData oracleSquare).optionsPassed.map
        OptionsList.required_infeasibility_reduction = some (some 0) :=
  ⟨⟨by decide, by decide, by decide, rfl, rfl⟩,
    (square_forces_required_reduction_if_unset samplePhase sampleData oracleSquare
      (by decide) (by decide) (by decide) rfl).1 rfl⟩

/-- C5 counterexample: a square problem whose inner solve returns `SUCCESS`
while the unscaled current constraint violation (2) still exceeds
`constr_viol_tol` (1) is reported as ordinary success (`return true`,
lines 334-427), refuting the claim that a square problem is never reported
as ordinary success while the residual violation exceeds the tolerance. -/
theorem square_success_residual_violation_counterexample :
    oracleSquare.square_problem = true ∧
      oracleSquare.resto_status = SolverReturn.SUCCESS ∧
      samplePhase.constr_viol_tol <
        oracleSquare.unscaled_curr_nlp_constraint_violation ∧
      (performRestoration samplePhase sampleData oracleSquare).outcome =
        Outcome.returned true := by
  refine ⟨rfl, rfl, ?_, rfl⟩
  norm_num [oracleSquare, sampleOracle, samplePhase]

/-- C5 (amended): for a square problem (with a valid inner current iterate),
if the inner solve returns `SUCCESS` and the unscaled current violation is at
most `constr_viol_tol`, or stops at an acceptable point with violation
strictly below `constr_viol_tol`, the call raises
`FEASIBILITY_PROBLEM_SOLVED` with the trial point accepted (lines 269-277 and
350-364); but when the inner solve returns `SUCCESS` with violation above
`constr_viol_tol`, the call returns ordinary success. -/
theorem performRestoration_square_feasibility
    (ph : Phase) (d : IpDataState) (q : Oracle)
    (hv : 0 < q.curr_constraint_violation)
    (hw : ¬ (ph.max_wall_time < bigTime ∧ ph.max_wall_time ≤ q.wall_elapsed))
    (hc : ¬ (ph.max_cpu_time < bigTime ∧ ph.max_cpu_time ≤ q.cpu_elapsed))
    (hsq : q.square_problem = true)
    (it : InnerIterate) (hcur : q.resto_curr = some it) :
    (q.resto_status = SolverReturn.SUCCESS ∧
        q.unscaled_curr_nlp_constraint_violation ≤ ph.constr_viol_tol →
      (performRestoration ph d q).outcome = Outcome.raised .FEASIBILITY_PROBLEM_SOLVED ∧
      (performRestoration ph d q).data.curr =
        { d.trial with x := it.x.comp0, s := it.s.comp0 } ∧
      REvent.acceptTrial ∈ (performRestoration ph d q).trace) ∧
    (q.resto_status = SolverReturn.STOP_AT_ACCEPTABLE_POINT ∧
        q.unscaled_curr_nlp_constraint_violation < ph.constr_viol_tol →
      (performRestoration ph d q).outcome = Outcome.raised .FEASIBILITY_PROBLEM_SOLVED ∧
      REvent.acceptTrial ∈ (performRestoration ph d q).trace) ∧
    (q.resto_status = SolverReturn.SUCCESS ∧
        ph.constr_viol_tol < q.unscaled_curr_nlp_constraint_violation →
      (performRestoration ph d q).outcome = Outcome.returned true) := by
  refine ⟨?_, ?_, ?_⟩
  · rintro ⟨hS, hle⟩
    refine ⟨?_, ?_, ?_⟩ <;> simp [performRestoration, hv, hw, hc, hS, hcur, hsq, hle]
  · rintro ⟨hS, hlt⟩
    have hns : ¬ q.resto_status = SolverReturn.SUCCESS := by simp [hS]
    refine ⟨?_, ?_⟩ <;>
      simp [performRestoration, dispatchFailureOutcome, hv, hw, hc, hS, hcur, hsq, hlt, hns]
  · rintro ⟨hS, hgt⟩
    have hnle : ¬ q.unscaled_curr_nlp_constraint_violation ≤ ph.constr_viol_tol :=
      not_le.mpr hgt
    simp [performRestoration, hv, hw, hc, hS, hcur, hsq, hnle]

def oracleSquareFeasible : Oracle :=
  { sampleOracle with
    square_problem := true
    unscaled_curr_nlp_constraint_violation := 1 }

theorem performRestoration_square_feasibility_witness :
    (0 < oracleSquareFeasible.curr_constraint_violation ∧
      ¬ (samplePhase.max_wall_time < bigTime ∧
          samplePhase.max_wall_time ≤ oracleSquareFeasible.wall_elapsed) ∧
      ¬ (samplePhase.max_cpu_time < bigTime ∧
          samplePhase.max_cpu_time ≤ oracleSquareFeasible.cpu_elapsed) ∧
      oracleSquareFeasible.square_problem = true ∧
      oracleSquareFeasible.resto_curr = some sampleInner ∧
      oracleSquareFeasible.resto_status = SolverReturn.SUCCESS ∧
      oracleSquareFeasible.unscaled_curr_nlp_constraint_violation ≤
        samplePhase.constr_viol_tol) ∧
      (performRestoration samplePhase sampleData oracleSquareFeasible).outcome =
        Outcome.raised .FEASIBILITY_PROBLEM_SOLVED ∧
      (performRestoration samplePhase sampleData oracleSquareFeasible).data.curr =
        { sampleData.trial with x := sampleInner.x.comp0, s := sampleInner.s.comp0 } ∧
      REvent.acceptTrial ∈
        (performRestoration samplePhase sampleData oracleSquareFeasible).trace :=
  ⟨⟨by decide, by decide, by decide, rfl, rfl, rfl, by decide⟩,
    (performRestoration_square_feasibility samplePhase sampleData oracleSquareFeasible
      (by decide) (by decide) (by decide) rfl sampleInner rfl).1 ⟨rfl, by decide⟩⟩

/-- C4: on the successful-repair path (lines 386-411), if the maximum
absolute entry over the four post-step trial bound-multiplier vectors
exceeds `bound_mult_reset_threshold`, all four are reset to uniformly `1`;
otherwise the computed values `trial_z = curr_z + alpha_dual * delta_z`
(assembled by `repairedTrial`) are kept. -/
theorem performRestoration_bound_mult_reset
    (ph : Phase) (d : IpDataState) (q : Oracle)
    (hv : 0 < q.curr_constraint_violation)
    (hw : ¬ (ph.max_wall_time < bigTime ∧ ph.max_wall_time ≤ q.wall_elapsed))
    (hc : ¬ (ph.max_cpu_time < bigTime ∧ ph.max_cpu_time ≤ q.cpu_elapsed))
    (hS : q.resto_status = SolverReturn.SUCCESS)
    (it : InnerIterate) (hcur : q.resto_curr = some it)
    (hne : ¬ (q.square_problem = true ∧
      q.unscaled_curr_nlp_constraint_violation ≤ ph.constr_viol_tol)) :
    (ph.bound_mult_reset_threshold <
        boundMultMax (repairedTrial d { d.trial with x := it.x.comp0, s := it.s.comp0 } q) →
      (performRestoration ph d q).data.trial =
        { repairedTrial d { d.trial with x := it.x.comp0, s := it.s.comp0 } q with
          z_L := (repairedTrial d { d.trial with x := it.x.comp0, s := it.s.comp0 } q).z_L.map
            (fun _ => (1 : ℚ))
          z_U := (repairedTrial d { d.trial with x := it.x.comp0, s := it.s.comp0 } q).z_U.map
            (fun _ => (1 : ℚ))
          v_L := (repairedTrial d { d.trial with x := it.x.comp0, s := it.s.comp0 } q).v_L.map
            (fun _ => (1 : ℚ))
          v_U := (repairedTrial d { d.trial with x := it.x.comp0, s := it.s.comp0 } q).v_U.map
            (fun _ => (1 : ℚ)) }) ∧
    (¬ ph.bound_mult_reset_threshold <
        boundMultMax (repairedTrial d { d.trial with x := it.x.comp0, s := it.s.comp0 } q) →
      (performRestoration ph d q).data.trial =
        repairedTrial d { d.trial with x := it.x.comp0, s := it.s.comp0 } q) := by
  constructor
  · intro hreset
    simp [performRestoration, hv, hw, hc, hS, hcur, hne, hreset]
  · intro hkeep
    simp [performRestoration, hv, hw, hc, hS, hcur, hne, hkeep]

/-- A reset-threshold of `0`: the sample repair produces a multiplier of
absolute value `1 > 0`, triggering the uniform reset. -/
def phaseZeroResetThreshold : Phase :=
  { samplePhase with bound_mult_reset_threshold := 0 }

theorem performRestoration_bound_mult_reset_witness :
    (0 < sampleOracle.curr_constraint_violation ∧
      ¬ (phaseZeroResetThreshold.max_wall_time < bigTime ∧
          phaseZeroResetThreshold.max_wall_time ≤ sampleOracle.wall_elapsed) ∧
      ¬ (phaseZeroResetThreshold.max_cpu_time < bigTime ∧
          phaseZeroResetThreshold.max_cpu_time ≤ sampleOracle.cpu_elapsed) ∧
      sampleOracle.resto_status = SolverReturn.SUCCESS ∧
      sampleOracle.resto_curr = some sampleInner ∧
      ¬ (sampleOracle.square_problem = true ∧
          sampleOracle.unscaled_curr_nlp_constraint_violation ≤
            phaseZeroResetThreshold.constr_viol_tol) ∧
      phaseZeroResetThreshold.bound_mult_reset_threshold <
        boundMultMax (repairedTrial sampleData
          { sampleData.trial with x := sampleInner.x.comp0, s := sampleInner.s.comp0 }
          sampleOracle)) ∧
      (performRestoration phaseZeroResetThreshold sampleData sampleOracle).data.trial =
        { repairedTrial sampleData
            { sampleData.trial with x := sampleInner.x.comp0, s := sampleInner.s.comp0 }
            sampleOracle with
          z_L := (repairedTrial sampleData
            { sampleData.trial with x := sampleInner.x.comp0, s := sampleInner.s.comp0 }
            sampleOracle).z_L.map (fun _ => (1 : ℚ))
          z_U := (repairedTrial sampleData
            { sampleData.trial with x := sampleInner.x.comp0, s := sampleInner.s.comp0 }
            sampleOracle).z_U.map (fun _ => (1 : ℚ))
          v_L := (repairedTrial sampleData
            { sampleData.trial with x := sampleInner.x.comp0, s := sampleInner.s.comp0 }
            sampleOracle).v_L.map (fun _ => (1 : ℚ))
          v_U := (repairedTrial sampleData
            { sampleData.trial with x := sampleInner.x.comp0, s := sampleInner.s.comp0 }
            sampleOracle).v_U.map (fun _ => (1 : ℚ)) } := by
  have hreset : phaseZeroResetThreshold.bound_mult_reset_threshold <
      boundMultMax (repairedTrial sampleData
        { sampleData.trial with x := sampleInner.x.comp0, s := sampleInner.s.comp0 }
        sampleOracle) := by
    norm_num [phaseZeroResetThreshold, samplePhase, boundMultMax, repairedTrial,
      repairDeltas, sampleData, sampleIterate, sampleInner, sampleCompound, sampleOracle,
      setTrialBoundMultipliersFromStep, computeBoundMultiplierStep, vAxpy,
      vElementWiseMultiply, vAddScalar, vElementWiseDivide, vAdd, vScale, vAmax]
  exact ⟨⟨by decide, by decide, by decide, rfl, rfl, by decide, hreset⟩,
    (performRestoration_bound_mult_reset phaseZeroResetThreshold sampleData sampleOracle
      (by decide) (by decide) (by decide) rfl sampleInner rfl (by decide)).1 hreset⟩

/-- C8: when the user has not set `resto_failure_feasibility_threshold`,
`InitializeImpl` stores exactly `1e2 * IpData().tol()` (lines 94-97); the
stored field is the only value `PerformRestoration` consults. -/
theorem initializeImpl_default_resto_failure_threshold
    (opts : InitOptions) (tol : ℚ)
    (h : opts.resto_failure_feasibility_threshold = none) :
    (initializeImpl opts tol).resto_failure_feasibility_threshold = 100 * tol := by
  simp [initializeImpl, h]

def sampleInitOptions : InitOptions :=
  { constr_mult_reset_threshold := 0
    bound_mult_reset_threshold := 1000
    expect_infeasible_problem := false
    constr_viol_tol := 1
    max_wall_time := bigTime
    max_cpu_time := bigTime
    resto_failure_feasibility_threshold := none
    base_options := emptyOptions }

theorem initializeImpl_default_resto_failure_threshold_witness :
    sampleInitOptions.resto_failure_feasibility_threshold = none ∧
      (initializeImpl sampleInitOptions 3).resto_failure_feasibility_threshold = 100 * 3 :=
  ⟨rfl, initializeImpl_default_resto_failure_threshold sampleInitOptions 3 rfl⟩

/-- C2: `ComputeBoundMultiplierStep` computes, element-wise,
`delta_z = ((curr_slack − trial_slack) ⊙ curr_z + mu) / curr_slack − curr_z`;
in particular, at every index where the current and trial slacks agree, the
result is exactly `mu / curr_slack − curr_z`. -/
theorem computeBoundMultiplierStep_formula (mu : ℚ) (z s t : Vec) :
    computeBoundMultiplierStep mu z s t = deltaZSpecFormula mu z s t ∧
    ∀ i : ℕ, i < z.length → i < s.length → i < t.length →
      s.getD i 0 = t.getD i 0 →
      (computeBoundMultiplierStep mu z s t).getD i 0 =
        mu / s.getD i 0 - z.getD i 0 := by
  refine ⟨computeBoundMultiplierStep_eq_formula mu z s t, ?_⟩
  intro i hz hs ht hst
  rw [computeBoundMultiplierStep_eq_formula]
  unfold deltaZSpecFormula
  rw [zip3With_getD _ z s t i hz hs ht, hst]
  simp

theorem computeBoundMultiplierStep_formula_witness :
    computeBoundMultiplierStep 7 [2, 3] [5, 4] [5, 9] =
        deltaZSpecFormula 7 [2, 3] [5, 4] [5, 9] ∧
      (0 < ([2, 3] : Vec).length ∧ 0 < ([5, 4] : Vec).length ∧
        0 < ([5, 9] : Vec).length ∧
        ([5, 4] : Vec).getD 0 0 = ([5, 9] : Vec).getD 0 0) ∧
      (computeBoundMultiplierStep 7 [2, 3] [5, 4] [5, 9]).getD 0 0 =
        7 / ([5, 4] : Vec).getD 0 0 - ([2, 3] : Vec).getD 0 0 :=
  ⟨(computeBoundMultiplierStep_formula 7 [2, 3] [5, 4] [5, 9]).1,
    ⟨by decide, by decide, by decide, rfl⟩,
    (computeBoundMultiplierStep_formula 7 [2, 3] [5, 4] [5, 9]).2 0
      (by decide) (by decide) (by decide) rfl⟩

end IpoptResto
